import Mathlib

/-!
Verification model of the Police-bot tenant-submission service
(`src/server.ts`).  The service drives a headless browser against an
external form; here the browser/page side effects are represented by
explicit environment records and event traces, while every decision the
TypeScript code makes (validation, retry arithmetic, string parsing,
branch order, response construction) is translated directly.
-/

set_option maxRecDepth 4000

/-- JSON leaf values appearing in the response bodies of the service. -/
inductive JVal
  | bool (b : Bool)
  | str (s : String)
  deriving DecidableEq, Repr

/-- A JSON object body, as an ordered key/value list. -/
abbrev Body := List (String × JVal)

/-- An HTTP response: status code plus JSON body. -/
structure Resp where
  status : Nat
  body : Body
  deriving DecidableEq, Repr

/-- Observable side effects of one request, in order of occurrence. -/
inductive Ev
  | launchAttempt (n : Nat)
  | delay (ms : Nat)
  | refreshScheduled
  | ctxClose
  | browserClose
  | closeErrorLogged
  deriving DecidableEq, Repr

/-- ASCII digit test, as in the JS regex class `\d`. -/
def isAsciiDigit (c : Char) : Bool := '0' ≤ c && c ≤ '9'

/-- Test of the DOB regex (two digits, hyphen, two digits, hyphen,
four digits) used by `assertDOB_DDMMYYYY`
(`server.ts` line 484): exactly two digits, a hyphen, two digits, a
hyphen, four digits. -/
def dobRegexOk (s : String) : Bool :=
  match s.toList with
  | [a, b, h1, c, d, h2, e, f, g, i] =>
    isAsciiDigit a && isAsciiDigit b && h1 == '-' &&
    isAsciiDigit c && isAsciiDigit d && h2 == '-' &&
    isAsciiDigit e && isAsciiDigit f && isAsciiDigit g && isAsciiDigit i
  | _ => false

/-- Model of `assertDOB_DDMMYYYY` (`server.ts` 483-488): throws unless the input
matches the DD-MM-YYYY pattern; modelled as `Except` with the thrown
message. -/
def assertDOB_DDMMYYYY (input : String) : Except String String :=
  if dobRegexOk input then Except.ok input
  else Except.error "DOB must be in DD-MM-YYYY format"

/-- JS `s.split(sep)` for a one-character separator: the groups of
characters between occurrences of the separator (an empty input yields
one empty group, as in JS). -/
def splitOnChar (sep : Char) : List Char → List (List Char)
  | [] => [[]]
  | c :: cs =>
    match splitOnChar sep cs with
    | [] => [[]]
    | g :: gs => if c == sep then [] :: g :: gs else (c :: g) :: gs

/-- String-level wrapper for `splitOnChar`. -/
def splitStr (sep : Char) (s : String) : List String :=
  (splitOnChar sep s.toList).map String.mk

/-- Model of `Number(part)` for the all-digit parts produced by a validated
DD-MM-YYYY date; other inputs give `none`, standing for NaN. -/
def digitsToIntAux (acc : Nat) : List Char → Option Nat
  | [] => some acc
  | c :: cs =>
    if isAsciiDigit c then digitsToIntAux (10 * acc + (c.toNat - '0'.toNat)) cs
    else none

/-- Numeric value of an all-digit string, `none` on anything else. -/
def digitsToInt (s : String) : Option Int :=
  match s.toList with
  | [] => none
  | cs => (digitsToIntAux 0 cs).map Int.ofNat

/-- Model of `computeAgeFromDob` (`server.ts` 489-499), with the current date
passed explicitly (the TS reads it from `new Date()`).  The function is
only ever called on inputs already validated by `assertDOB_DDMMYYYY`,
so the split yields exactly three all-digit parts; the JS NaN paths for
other inputs are collapsed to the string "NaN". -/
def computeAgeFromDob (dob : String) (nowY nowM nowD : Int) : String :=
  match splitStr '-' dob with
  | [d, m, y] =>
    match digitsToInt d, digitsToInt m, digitsToInt y with
    | some dd, some mm, some yyyy =>
      let age := nowY - yyyy
      let hadBirthday : Bool := (nowM > mm) || (nowM == mm && nowD ≥ dd)
      toString (if hadBirthday then age else age - 1)
    | _, _, _ => "NaN"
  | _ => "NaN"

/-- Model of the line `const computedAge = p.age || computeAgeFromDob(...)`
(`server.ts` 601): the JS or-operator falls through on an absent or
empty age. -/
def computedAge (age : Option String) (dob : String) (nowY nowM nowD : Int) : String :=
  match age with
  | some a => if a = "" then computeAgeFromDob dob nowY nowM nowD else a
  | none => computeAgeFromDob dob nowY nowM nowD

/-- ASCII letter test, as in the JS regex class `[a-zA-Z]`. -/
def isAsciiLetter (c : Char) : Bool :=
  ('a' ≤ c && c ≤ 'z') || ('A' ≤ c && c ≤ 'Z')

/-- The test `/^[a-zA-Z]:\\/.test s` from `downloadToTemp`
(`server.ts` 501): a drive letter, a colon and a backslash. -/
def isWinDrivePath (s : String) : Bool :=
  match s.toList with
  | a :: b :: c :: _ => isAsciiLetter a && b == ':' && c == '\\'
  | _ => false

/-- Index of the last occurrence of `c` in `cs`, if any. -/
def lastIdxOf (c : Char) (cs : List Char) : Option Nat :=
  match cs.reverse.findIdx? (fun x => x == c) with
  | some j => some (cs.length - 1 - j)
  | none => none

/-- Node `path.extname` on a POSIX path (the container runs Linux):
take the basename after the last slash; the extension runs from the
last dot of the basename, unless that dot is the first character or the
basename is `..`. -/
def extname (p : String) : String :=
  let b := (splitStr '/' p).getLastD ""
  if b = ".." then ""
  else
    match lastIdxOf '.' b.toList with
    | none => ""
    | some 0 => ""
    | some i => String.mk (b.toList.drop i)

/-- Environment for one `downloadToTemp` call: the fetch outcome, the
pathname produced by `new URL(urlOrPath).pathname` (none when the URL
constructor throws), the `crypto.randomBytes(6).toString('hex')`
suffix, and `os.tmpdir()`. -/
structure FetchEnv where
  respOk : Bool
  pathname : Option String
  randHex : String
  tmpdir : String

/-- JS `s.startsWith('/')`: the first character is a slash. -/
def startsWithSlash (s : String) : Bool :=
  match s.toList with
  | c :: _ => c == '/'
  | [] => false

/-- Model of `downloadToTemp` (`server.ts` 500-510).  Returns the resulting
local path (or the thrown message) together with the number of network
fetches performed.  `path.join(os.tmpdir(), ...)` is modelled as
slash-concatenation. -/
def downloadToTemp (env : FetchEnv) (urlOrPath : String) : Except String String × Nat :=
  if startsWithSlash urlOrPath || isWinDrivePath urlOrPath then
    (Except.ok urlOrPath, 0)
  else if !env.respOk then
    (Except.error ("Failed to fetch file: " ++ urlOrPath), 1)
  else
    let ext := match env.pathname with
      | some pn => extname pn
      | none => ""
    (Except.ok (env.tmpdir ++ "/upload-" ++ env.randHex ++ ext), 1)

/-- A page interaction performed by the field-fill helpers.  `fill`
stands for the `typeInto` call (wait, clear, type) and `select` for the
`safeSelect` call (label-first, value-fallback). -/
inductive FillAct
  | fill (sel : String) (v : String)
  | select (sel : String) (v : String)
  deriving DecidableEq, Repr

/-- The candidate loop shared by `setIfExists` and `selectIfExists`:
the first selector present on the page, if any. -/
def firstPresent (present : String → Bool) : List String → Option String
  | [] => none
  | sel :: rest => if present sel then some sel else firstPresent present rest

/-- Model of `setIfExists` (`server.ts` 524-532): no-op on an absent or empty
value (JS `if (!value) return`), otherwise `typeInto` on the first
selector whose locator count is nonzero, then return; silently does
nothing when no candidate exists.  The returned list holds the page
interactions performed. -/
def setIfExists (present : String → Bool) (selectors : List String)
    (value : Option String) : List FillAct :=
  match value with
  | none => []
  | some v =>
    if v = "" then []
    else
      match firstPresent present selectors with
      | some sel => [FillAct.fill sel v]
      | none => []

/-- Model of `selectIfExists` (`server.ts` 533-541): same shape as `setIfExists`
with `safeSelect` in place of `typeInto`. -/
def selectIfExists (present : String → Bool) (selectors : List String)
    (value : Option String) : List FillAct :=
  match value with
  | none => []
  | some v =>
    if v = "" then []
    else
      match firstPresent present selectors with
      | some sel => [FillAct.select sel v]
      | none => []

/-- Outcome of a Playwright-style bounded wait or action. -/
inductive PwResult
  | ok
  | timeout
  | error (msg : String)
  deriving DecidableEq, Repr

/-- Which `selectOption` strategy succeeded in the label-first,
value-fallback try/catch. -/
inductive SelectStrategy
  | byLabel
  | byValue
  deriving DecidableEq, Repr

/-- Environment for one `selectWithPostback` call: whether each bounded
wait resolves within its timeout and whether each selection strategy
succeeds, plus the option count the dependent select reaches within the
timeout of the final wait. -/
structure PostbackEnv where
  selectorVisible : Bool
  labelSelectOk : Bool
  valueSelectOk : Bool
  networkIdleReached : Bool
  dependentOptions : Nat

/-- Model of `selectWithPostback` (`server.ts` 542-551): wait for the first
dropdown, select by label falling back to value, wait for network idle,
then wait until the option list of the dependent selector has length
strictly greater than one.  Returns the outcome and the selection
strategy used (none if the step never ran or both strategies threw). -/
def selectWithPostback (env : PostbackEnv) : PwResult × Option SelectStrategy :=
  if !env.selectorVisible then (PwResult.timeout, none)
  else if env.labelSelectOk then
    if !env.networkIdleReached then (PwResult.timeout, some SelectStrategy.byLabel)
    else if env.dependentOptions > 1 then (PwResult.ok, some SelectStrategy.byLabel)
    else (PwResult.timeout, some SelectStrategy.byLabel)
  else if env.valueSelectOk then
    if !env.networkIdleReached then (PwResult.timeout, some SelectStrategy.byValue)
    else if env.dependentOptions > 1 then (PwResult.ok, some SelectStrategy.byValue)
    else (PwResult.timeout, some SelectStrategy.byValue)
  else (PwResult.error "selectOption failed", none)

/-- Character class `[A-Za-z0-9\/\-]` from the reference-number regexes. -/
def isTokenChar (c : Char) : Bool :=
  isAsciiLetter c || isAsciiDigit c || c == '/' || c == '-'

/-- Maximal prefix of token characters and the rest of the input. -/
def tokenTake : List Char → List Char × List Char
  | [] => ([], [])
  | c :: cs =>
    if isTokenChar c then
      let (run, rest) := tokenTake cs
      (c :: run, rest)
    else ([], c :: cs)

/-- Model of `txt.match(/([A-Za-z0-9\/\-]+)/)` — the leftmost maximal run of
token characters, if any. -/
def firstTokenAux : List Char → Option (List Char)
  | [] => none
  | c :: cs =>
    if isTokenChar c then some (c :: (tokenTake cs).1)
    else firstTokenAux cs

/-- First `[A-Za-z0-9\/\-]+` token of a string, as `String.match` returns
it. -/
def firstToken (s : String) : Option String :=
  (firstTokenAux s.toList).map String.mk

/-- Case-insensitive literal match: consume `lit` from the front of the
input (regex `i` flag). -/
def matchLit : List Char → List Char → Option (List Char)
  | [], cs => some cs
  | _ :: _, [] => none
  | l :: ls, c :: cs => if l.toLower == c.toLower then matchLit ls cs else none

/-- Whitespace class `\s` (the characters relevant to page markup). -/
def isWsChar (c : Char) : Bool :=
  c == ' ' || c == '\t' || c == '\n' || c == '\r'

/-- JS `String.prototype.trim`: strip leading and trailing whitespace. -/
def jsTrim (s : String) : String :=
  String.mk (((s.toList.dropWhile isWsChar).reverse.dropWhile isWsChar).reverse)

/-- Greedy `\s*`.  No backtracking is needed: no later element of the
reference-number pattern can match a whitespace character. -/
def dropWs : List Char → List Char
  | [] => []
  | c :: cs => if isWsChar c then dropWs cs else c :: cs

/-- Regex optional (`x?`) with backtracking: try the greedy branch
first and fall back to the empty match, exactly as the JS engine does. -/
def optThen (m : List Char → Option (List Char))
    (k : List Char → Option (List Char)) (cs : List Char) : Option (List Char) :=
  match m cs with
  | some cs2 =>
    match k cs2 with
    | some r => some r
    | none => k cs
  | none => k cs

/-- Attempt the pattern
`Ref(?:erence)?\s*No\.?\s*[:\-]?\s*([A-Za-z0-9\/\-]+)` (flag `i`) at
the current position, returning the captured token characters. -/
def matchRefAt (cs : List Char) : Option (List Char) :=
  match matchLit ['r', 'e', 'f'] cs with
  | none => none
  | some cs1 =>
    optThen (matchLit ['e', 'r', 'e', 'n', 'c', 'e'])
      (fun cs2 =>
        match matchLit ['n', 'o'] (dropWs cs2) with
        | none => none
        | some cs4 =>
          optThen (fun l =>
              match l with
              | '.' :: r => some r
              | _ => none)
            (fun cs5 =>
              optThen (fun l =>
                  match l with
                  | c :: r => if c == ':' || c == '-' then some r else none
                  | _ => none)
                (fun cs7 =>
                  match tokenTake (dropWs cs7) with
                  | ([], _) => none
                  | (tok, _) => some tok)
                (dropWs cs5))
            cs4)
      cs1

/-- Leftmost match of the fallback pattern over the whole input, as
`html.match(...)` finds it. -/
def refNoScanAux : List Char → Option (List Char)
  | [] => none
  | c :: cs =>
    match matchRefAt (c :: cs) with
    | some tok => some tok
    | none => refNoScanAux cs

/-- The regex fallback of the reference-number extraction
(`server.ts` 731-735): scan the full page markup for the
`Reference No` label pattern; the capture is `.trim()`-ed (a no-op on
token characters). -/
def refNoScan (html : String) : Option String :=
  (refNoScanAux html.toList).map (fun tok => jsTrim (String.mk tok))

/-- The prioritized candidate selectors for the reference number
(`server.ts` 718-723). -/
def refCandidates : List String :=
  ["#ContentPlaceHolder1_lblRefNo", "#ContentPlaceHolder1_lblTRefNo",
   "#lblRefNo", "#lblReference"]

/-- The candidate loop of the extraction (`server.ts` 724-730):
take the first candidate that is present on the page and whose trimmed
text contains a token; a present candidate without a token is skipped. -/
def extractFromCandidates (candText : String → Option String) :
    List String → Option String
  | [] => none
  | sel :: rest =>
    match candText sel with
    | none => extractFromCandidates candText rest
    | some txt =>
      match firstToken (jsTrim txt) with
      | some tok => some tok
      | none => extractFromCandidates candText rest

/-- Full reference-number extraction (`server.ts` 716-735): selector
candidates first, regex scan of the page markup as fallback. -/
def extractReference (candText : String → Option String) (html : String) :
    Option String :=
  match extractFromCandidates candText refCandidates with
  | some r => some r
  | none => refNoScan html

/-- The retry loop of `launchBrowserWithRetry` (`server.ts` 449-481),
with `attempt` the current 1-based attempt index and the second `Nat`
the number of attempts still allowed.  `succ n` tells whether launch
attempt `n` succeeds.  Returns the successful attempt number (or the
thrown message after exhaustion) and the trace of attempts and backoff
delays. -/
def launchAux (succ : Nat → Bool) (maxRetries : Nat) :
    Nat → Nat → Except String Nat × List Ev
  | _, 0 => (Except.error "browser launch loop exhausted", [])
  | attempt, left + 1 =>
    if succ attempt then (Except.ok attempt, [Ev.launchAttempt attempt])
    else if left = 0 then
      (Except.error
        ("Failed to launch browser after " ++ toString maxRetries ++ " attempts"),
       [Ev.launchAttempt attempt])
    else
      ((launchAux succ maxRetries (attempt + 1) left).1,
       Ev.launchAttempt attempt :: Ev.delay (2000 * 2 ^ (attempt - 1)) ::
         (launchAux succ maxRetries (attempt + 1) left).2)

/-- Model of `launchBrowserWithRetry(maxRetries)` (`server.ts` 446-482): up to
`maxRetries` attempts starting at attempt 1, waiting
`2000 * 2 ^ (attempt - 1)` ms after each failed non-final attempt.
The route calls it with the default `maxRetries = 3`. -/
def launchBrowserWithRetry (succ : Nat → Bool) (maxRetries : Nat) :
    Except String Nat × List Ev :=
  launchAux succ maxRetries 1 maxRetries

/-- Backoff delays of a launch trace. -/
def delaysOf (evs : List Ev) : List Nat :=
  evs.filterMap (fun e =>
    match e with
    | Ev.delay d => some d
    | _ => none)

/-- The request fields that influence the modelled control flow of the
`/api/police/submit/tenant` route.  The remaining `PoliceFormData`
fields are only passed to fill helpers inside the automation phase,
which the route model abstracts as one outcome. -/
structure PoliceFormData where
  date_of_birth : String
  age : Option String
  passport_photo_url : String
  combined_id_photo_url : Option String

/-- Environment of one route invocation: the readiness flags and cache
freshness at entry, the launch outcomes, whether context/page creation
succeeds (with the thrown message otherwise), the outcome of the
navigation/fill/upload/submit/validation phase, the post-submit page
(candidate selector texts and full markup), and whether each close call
in the `finally` block throws. -/
structure SubmitEnv where
  serverReady : Bool
  playwrightReady : Bool
  cacheFresh : Bool
  launchSucc : Nat → Bool
  ctxOk : Bool
  ctxErrMsg : String
  autoOutcome : Except String Unit
  candText : String → Option String
  html : String
  ctxCloseFails : Bool
  browserCloseFails : Bool

/-- Events of the `finally` block (`server.ts` 743-750): close the
context if it was created, then the browser if it was launched; a
throw from either `close()` is caught and logged, never propagated. -/
def finallyEvs (ctxCreated : Bool) (env : SubmitEnv) : List Ev :=
  (if ctxCreated then
    Ev.ctxClose :: (if env.ctxCloseFails then [Ev.closeErrorLogged] else [])
  else []) ++
  Ev.browserClose :: (if env.browserCloseFails then [Ev.closeErrorLogged] else [])

/-- The try-block body after context creation: the abstracted
automation phase, then on success the reference-number extraction
(`server.ts` 610-738); a missing reference throws. -/
def innerOutcome (env : SubmitEnv) : Except String String :=
  match env.autoOutcome with
  | Except.error m => Except.error m
  | Except.ok _ =>
    match extractReference env.candText env.html with
    | some r => Except.ok r
    | none => Except.error "Reference number not found after submission."

/-- Response sent by `res.status(s).json` with ok false and an error
message. -/
def jsonFail (status : Nat) (m : String) : Resp :=
  { status := status, body := [("ok", JVal.bool false), ("error", JVal.str m)] }

/-- Response sent with ok false, an error message and a hint field —
the browser-unavailable response (`server.ts` 574-578). -/
def jsonFailHint (status : Nat) (m h : String) : Resp :=
  { status := status,
    body := [("ok", JVal.bool false), ("error", JVal.str m), ("hint", JVal.str h)] }

/-- Response sent by `res.json` with ok true and the extracted
reference number (`server.ts` 739). -/
def jsonOk (r : String) : Resp :=
  { status := 200, body := [("ok", JVal.bool true), ("referenceNo", JVal.str r)] }

/-- The `POST /api/police/submit/tenant` handler (`server.ts` 554-751)
as a function from environment and payload to the response sent and
the trace of observable effects.  Branch order follows the source:
DOB assertion, serverReady gate, stale-cache background refresh
scheduling, playwrightReady gate, browser launch with retry, context
creation, automation + extraction, and the `finally` closes.  The
scheduled refresh is an asynchronous `setTimeout` and cannot change
the outcome of the current request, so it appears only in the trace. -/
def submitTenant (env : SubmitEnv) (p : PoliceFormData) : Resp × List Ev :=
  match assertDOB_DDMMYYYY p.date_of_birth with
  | Except.error msg => (jsonFail 400 msg, [])
  | Except.ok _ =>
    if !env.serverReady then
      (jsonFail 503 "Server not ready yet, please try again", [])
    else
      let evs0 : List Ev := if env.cacheFresh then [] else [Ev.refreshScheduled]
      if !env.playwrightReady then
        (jsonFailHint 503 "Browser services not available yet, please try again in a moment"
          "Check /browser-status for current browser availability", evs0)
      else
        match launchBrowserWithRetry env.launchSucc 3 with
        | (Except.error msg, levs) => (jsonFail 500 msg, evs0 ++ levs)
        | (Except.ok _, levs) =>
          if !env.ctxOk then
            (jsonFail 500 env.ctxErrMsg, evs0 ++ levs ++ finallyEvs false env)
          else
            match innerOutcome env with
            | Except.ok r => (jsonOk r, evs0 ++ levs ++ finallyEvs true env)
            | Except.error m => (jsonFail 500 m, evs0 ++ levs ++ finallyEvs true env)

/-! ## Supporting lemmas -/

/-- A candidate scan over selectors none of which is present yields
nothing. -/
lemma firstPresent_none (present : String → Bool) :
    ∀ sels, (∀ x ∈ sels, present x = false) → firstPresent present sels = none := by
  intro sels h
  induction sels with
  | nil => rfl
  | cons s rest ih =>
    simp [firstPresent, h s (by simp)]
    exact ih (fun x hx => h x (by simp [hx]))

/-- A candidate scan picks the first present selector, skipping earlier
absent ones. -/
lemma firstPresent_mid (present : String → Bool) :
    ∀ l1 sel l2, (∀ x ∈ l1, present x = false) → present sel = true →
      firstPresent present (l1 ++ sel :: l2) = some sel := by
  intro l1 sel l2 h1 hsel
  induction l1 with
  | nil => simp [firstPresent, hsel]
  | cons s rest ih =>
    simp [firstPresent, h1 s (by simp)]
    exact ih (fun x hx => h1 x (by simp [hx]))

/-- One unfolding step of the retry loop on a failed non-final
attempt. -/
lemma launchAux_step (succ : Nat → Bool) (m attempt left : Nat)
    (hs : succ attempt = false) (hl : left ≠ 0) :
    launchAux succ m attempt (left + 1) =
      ((launchAux succ m (attempt + 1) left).1,
       Ev.launchAttempt attempt :: Ev.delay (2000 * 2 ^ (attempt - 1)) ::
         (launchAux succ m (attempt + 1) left).2) := by
  simp only [launchAux]
  simp [hs, hl]

/-- The final attempt of the retry loop throws on failure. -/
lemma launchAux_last (succ : Nat → Bool) (m attempt : Nat)
    (hs : succ attempt = false) :
    launchAux succ m attempt 1 =
      (Except.error ("Failed to launch browser after " ++ toString m ++ " attempts"),
       [Ev.launchAttempt attempt]) := by
  simp [launchAux, hs]

/-- Backoff delays of an all-failing run: one delay per non-final
attempt, the delay after attempt `n` being `2000 * 2 ^ (n - 1)`. -/
lemma launchAux_delays_allfail (succ : Nat → Bool) (hf : ∀ n, succ n = false)
    (m : Nat) :
    ∀ f a, 1 ≤ a →
      delaysOf (launchAux succ m a (f + 1)).2 =
        (List.range f).map (fun i => 2000 * 2 ^ (a - 1 + i)) := by
  intro f
  induction f with
  | zero =>
    intro a _
    simp [launchAux_last succ m a (hf a), delaysOf]
  | succ k ih =>
    intro a ha
    rw [launchAux_step succ m a (k + 1) (hf a) (Nat.succ_ne_zero k)]
    have h3 := ih (a + 1) (by omega)
    simp only [delaysOf, List.filterMap_cons] at h3 ⊢
    rw [h3, List.range_succ_eq_map]
    simp only [List.map_cons, List.map_map]
    refine congrArg₂ _ (by simp) ?_
    apply List.map_congr_left
    intro i _
    simp only [Function.comp]
    have he : a + 1 - 1 + i = a - 1 + (i + 1) := by omega
    rw [he]

/-- An all-failing run exhausts the retries and throws the exhaustion
message. -/
lemma launchAux_error_allfail (succ : Nat → Bool) (hf : ∀ n, succ n = false)
    (m : Nat) :
    ∀ f a, (launchAux succ m a (f + 1)).1 =
      Except.error ("Failed to launch browser after " ++ toString m ++ " attempts") := by
  intro f
  induction f with
  | zero => intro a; simp [launchAux_last succ m a (hf a)]
  | succ k ih =>
    intro a
    rw [launchAux_step succ m a (k + 1) (hf a) (Nat.succ_ne_zero k)]
    exact ih (a + 1)

/-- An all-failing run performs the attempts in increasing order. -/
lemma launchAux_attempts_allfail (succ : Nat → Bool) (hf : ∀ n, succ n = false)
    (m : Nat) :
    ∀ f a,
      (launchAux succ m a (f + 1)).2.filterMap
          (fun e => match e with | Ev.launchAttempt n => some n | _ => none) =
        (List.range (f + 1)).map (fun i => a + i) := by
  intro f
  induction f with
  | zero => intro a; simp [launchAux_last succ m a (hf a), List.range_succ]
  | succ k ih =>
    intro a
    rw [launchAux_step succ m a (k + 1) (hf a) (Nat.succ_ne_zero k)]
    have h3 := ih (a + 1)
    simp only [List.filterMap_cons] at h3 ⊢
    rw [h3]
    conv_rhs => rw [List.range_succ_eq_map]
    simp only [List.map_cons, List.map_map]
    refine congrArg₂ _ (by simp) ?_
    apply List.map_congr_left
    intro i _
    simp only [Function.comp]
    omega

/-- The launch trace contains no close events. -/
lemma launchAux_closes (succ : Nat → Bool) (m : Nat) :
    ∀ f a, ((launchAux succ m a f).2.count Ev.browserClose = 0) ∧
      ((launchAux succ m a f).2.count Ev.ctxClose = 0) := by
  intro f
  induction f with
  | zero => intro a; simp [launchAux]
  | succ k ih =>
    intro a
    by_cases hs : succ a
    · simp [launchAux, hs]
    · by_cases hk : k = 0
      · simp [launchAux, hs, hk]
      · simp only [launchAux]
        simp [hs, hk, List.count_cons, ih (a + 1)]

/-- The cleanup block closes the browser exactly once, and the context
exactly once when it was created. -/
lemma finallyEvs_counts (ctxCreated : Bool) (env : SubmitEnv) :
    ((finallyEvs ctxCreated env).count Ev.browserClose = 1) ∧
    ((finallyEvs ctxCreated env).count Ev.ctxClose =
      if ctxCreated then 1 else 0) := by
  cases ctxCreated <;> cases h1 : env.ctxCloseFails <;>
    cases h2 : env.browserCloseFails <;>
      simp [finallyEvs, h1, h2, List.count_cons, List.count_append]

/-- When no reference candidate is present, the candidate loop yields
nothing. -/
lemma extractFromCandidates_none (candText : String → Option String) :
    ∀ cands, (∀ sel ∈ cands, candText sel = none) →
      extractFromCandidates candText cands = none := by
  intro cands h
  induction cands with
  | nil => rfl
  | cons s rest ih =>
    simp only [extractFromCandidates, h s (by simp)]
    exact ih (fun x hx => h x (by simp [hx]))

/-! ## Concrete fixtures used by witnesses and counterexamples -/

/-- A well-formed payload. -/
def pGood : PoliceFormData :=
  { date_of_birth := "15-06-2000", age := none,
    passport_photo_url := "https://files.example/p.jpg",
    combined_id_photo_url := none }

/-- A payload whose date of birth is in YYYY-MM-DD, not DD-MM-YYYY. -/
def pBadDob : PoliceFormData :=
  { pGood with date_of_birth := "1990-01-01" }

/-- A fully healthy environment: ready flags set, fresh cache, every
launch attempt succeeds, automation succeeds and the result page shows
a reference number. -/
def envBase : SubmitEnv :=
  { serverReady := true, playwrightReady := true, cacheFresh := true,
    launchSucc := fun _ => true, ctxOk := true, ctxErrMsg := "ctx error",
    autoOutcome := Except.ok (), candText := fun _ => none,
    html := "<html><body>Reference No: ABC/123-45</body></html>",
    ctxCloseFails := false, browserCloseFails := false }

/-- Healthy environment in which every browser launch attempt fails. -/
def envAllFail : SubmitEnv := { envBase with launchSucc := fun _ => false }

/-- Healthy environment whose result page carries no reference number. -/
def envNoRef : SubmitEnv := { envBase with html := "no reference here" }

/-- Healthy environment in which the external site rejects the data. -/
def envRemoteErr : SubmitEnv :=
  { envBase with
    autoOutcome :=
      Except.error "Validation error on target site. Check required fields / formats." }

/-- The captured page markup named by claim C2. -/
def c2html : String := "<html><body>Reference No: ABC/123-45</body></html>"

/-! ## Claims -/

/-- C1: for every request whose date of birth does not match the
DD-MM-YYYY regex, the submit handler immediately returns HTTP 400 with
ok false and the ValidationError message, performs no side effect at
all, and in particular never invokes the browser-acquisition
function. -/
theorem C1_invalid_dob_rejected_before_launch (env : SubmitEnv)
    (p : PoliceFormData) (h : dobRegexOk p.date_of_birth = false) :
    (submitTenant env p).1.status = 400 ∧
    (submitTenant env p).1.body =
      [("ok", JVal.bool false),
       ("error", JVal.str "DOB must be in DD-MM-YYYY format")] ∧
    (submitTenant env p).2 = [] ∧
    ∀ n, Ev.launchAttempt n ∉ (submitTenant env p).2 := by
  simp [submitTenant, assertDOB_DDMMYYYY, h, jsonFail]

/-- Witness for C1 at a concrete malformed payload. -/
theorem C1_invalid_dob_rejected_before_launch_witness :
    dobRegexOk pBadDob.date_of_birth = false ∧
    (submitTenant envBase pBadDob).1.status = 400 ∧
    (submitTenant envBase pBadDob).2 = [] :=
  ⟨by decide,
   (C1_invalid_dob_rejected_before_launch envBase pBadDob (by decide)).1,
   (C1_invalid_dob_rejected_before_launch envBase pBadDob (by decide)).2.2.1⟩

/-- C2: reference extraction tries the prioritized candidate selectors
first, taking the first alphanumeric-slash-hyphen token of the trimmed
text of a present candidate; with no candidate present it falls back to
the case-insensitive Reference-No regex scan of the full markup; on the
captured markup containing the text Reference No: ABC/123-45 both the
fallback and the whole extraction deterministically yield ABC/123-45;
and when neither method finds a token the handler fails with the
reference-not-found error as an HTTP 500. -/
theorem C2_reference_extraction :
    (∀ candText html, (∀ sel ∈ refCandidates, candText sel = none) →
      extractReference candText html = refNoScan html) ∧
    extractReference (fun _ => none) c2html = some "ABC/123-45" ∧
    refNoScan c2html = some "ABC/123-45" ∧
    (∀ candText html txt tok,
      candText "#ContentPlaceHolder1_lblRefNo" = some txt →
      firstToken (jsTrim txt) = some tok →
      extractReference candText html = some tok) ∧
    (∀ env p, dobRegexOk p.date_of_birth = true → env.serverReady = true →
      env.playwrightReady = true → env.ctxOk = true →
      (∃ k, (launchBrowserWithRetry env.launchSucc 3).1 = Except.ok k) →
      env.autoOutcome = Except.ok () →
      extractReference env.candText env.html = none →
      (submitTenant env p).1 =
        jsonFail 500 "Reference number not found after submission.") := by
  refine ⟨?_, by decide, by decide, ?_, ?_⟩
  · intro candText html h
    simp [extractReference, extractFromCandidates_none candText refCandidates h]
  · intro candText html txt tok h1 h2
    simp [extractReference, extractFromCandidates, refCandidates, h1, h2]
  · rintro env p hdob hs hp hctx ⟨k, hk⟩ hauto hx
    rcases hL : launchBrowserWithRetry env.launchSucc 3 with ⟨r, levs⟩
    rw [hL] at hk
    simp only at hk
    subst hk
    simp [submitTenant, assertDOB_DDMMYYYY, hdob, hs, hp, hctx, hL,
      innerOutcome, hauto, hx]

/-- Witness for C2: a present first candidate with surrounding
whitespace yields its token. -/
theorem C2_reference_extraction_witness :
    extractReference
      (fun s => if s == "#ContentPlaceHolder1_lblRefNo"
        then some " RJ/2024-001 " else none) "junk" = some "RJ/2024-001" :=
  C2_reference_extraction.2.2.2.1
    (fun s => if s == "#ContentPlaceHolder1_lblRefNo"
      then some " RJ/2024-001 " else none)
    "junk" " RJ/2024-001 " "RJ/2024-001" (by decide) (by decide)

/-- C3 counterexample: the claim that every failure response carries a
distinct errorKind field is false.  A run in which extraction finds no
reference number produces an ok-false body with no errorKind key, and
that body has exactly the same keys as the body of a remote-validation
failure, so the reference-not-found case is distinguishable only by
the free-text message. -/
theorem C3_errorKind_counterexample :
    (submitTenant envNoRef pGood).1.body.lookup "ok" = some (JVal.bool false) ∧
    (submitTenant envNoRef pGood).1.body.lookup "errorKind" = none ∧
    (submitTenant envNoRef pGood).1.body =
      [("ok", JVal.bool false),
       ("error", JVal.str "Reference number not found after submission.")] ∧
    (submitTenant envNoRef pGood).1.body.map Prod.fst =
      (submitTenant envRemoteErr pGood).1.body.map Prod.fst :=
  ⟨by decide, by decide, by decide, by decide⟩

/-- C3 as amended: every response body is fully populated and has one
of three shapes — ok true with a referenceNo on success, ok false with
an error message on failure, or ok false with an error message and a
hint for the browser-unavailable 503 — and no response ever carries an
errorKind field, so failure kinds are distinguishable only through the
free-text error message. -/
theorem C3_response_shapes (env : SubmitEnv) (p : PoliceFormData) :
    "errorKind" ∉ (submitTenant env p).1.body.map Prod.fst ∧
    ((∃ r, (submitTenant env p).1 = jsonOk r) ∨
     (∃ s m, (submitTenant env p).1 = jsonFail s m) ∨
     (∃ m h, (submitTenant env p).1 = jsonFailHint 503 m h)) := by
  by_cases hA : dobRegexOk p.date_of_birth
  case neg =>
    simp only [submitTenant, assertDOB_DDMMYYYY, hA, Bool.false_eq_true, if_false]
    exact ⟨by simp [jsonFail], Or.inr (Or.inl ⟨400, _, rfl⟩)⟩
  case pos =>
    simp only [submitTenant, assertDOB_DDMMYYYY, hA, if_true]
    cases hS : env.serverReady with
    | false =>
      simp only [hS, Bool.not_false, if_true]
      exact ⟨by simp [jsonFail], Or.inr (Or.inl ⟨503, _, rfl⟩)⟩
    | true =>
      simp only [hS, Bool.not_true, Bool.false_eq_true, if_false]
      cases hP : env.playwrightReady with
      | false =>
        simp only [hP, Bool.not_false, if_true]
        exact ⟨by simp [jsonFailHint], Or.inr (Or.inr ⟨_, _, rfl⟩)⟩
      | true =>
        simp only [hP, Bool.not_true, Bool.false_eq_true, if_false]
        rcases hL : launchBrowserWithRetry env.launchSucc 3 with ⟨r, levs⟩
        cases r with
        | error msg =>
          simp only [hL]
          exact ⟨by simp [jsonFail], Or.inr (Or.inl ⟨500, _, rfl⟩)⟩
        | ok k =>
          simp only [hL]
          cases hC : env.ctxOk with
          | false =>
            simp only [hC, Bool.not_false, if_true]
            exact ⟨by simp [jsonFail], Or.inr (Or.inl ⟨500, _, rfl⟩)⟩
          | true =>
            simp only [hC, Bool.not_true, Bool.false_eq_true, if_false]
            rcases hI : innerOutcome env with m | rr
            · simp only [hI]
              exact ⟨by simp [jsonFail], Or.inr (Or.inl ⟨500, _, rfl⟩)⟩
            · simp only [hI]
              exact ⟨by simp [jsonOk], Or.inl ⟨_, rfl⟩⟩

/-- C4 counterexample: when browser launch exhausts its retries inside
a submission, the failure is surfaced to the client with HTTP status
500 (the generic catch of the route), not a 503-equivalent status. -/
theorem C4_not_503_counterexample :
    (submitTenant envAllFail pGood).1.status = 500 ∧
    ¬ (submitTenant envAllFail pGood).1.status = 503 :=
  ⟨by decide, by decide⟩

/-- C4 as amended: browser acquisition attempts a launch up to
maxAttempts times in increasing order, waiting between consecutive
attempts with an exponentially doubling delay — the delay after failed
attempt n is 2000 times 2 to the power n minus 1, so each wait is
twice the previous one; after the final attempt fails the loop throws
the exhaustion error, and the submission is surfaced to the client as
HTTP 500 with that message (not as a 503). -/
theorem C4_backoff_and_exhaustion (m : Nat) (succ : Nat → Bool)
    (hf : ∀ n, succ n = false) :
    (launchBrowserWithRetry succ (m + 1)).2.filterMap
        (fun e => match e with | Ev.launchAttempt n => some n | _ => none) =
      (List.range (m + 1)).map (fun i => i + 1) ∧
    delaysOf (launchBrowserWithRetry succ (m + 1)).2 =
      (List.range m).map (fun i => 2000 * 2 ^ i) ∧
    (∀ i di dn,
      (delaysOf (launchBrowserWithRetry succ (m + 1)).2)[i]? = some di →
      (delaysOf (launchBrowserWithRetry succ (m + 1)).2)[i + 1]? = some dn →
      dn = 2 * di) ∧
    (launchBrowserWithRetry succ (m + 1)).1 =
      Except.error ("Failed to launch browser after " ++ toString (m + 1) ++ " attempts") ∧
    (∀ env p, dobRegexOk p.date_of_birth = true → env.serverReady = true →
      env.playwrightReady = true → (∀ n, env.launchSucc n = false) →
      (submitTenant env p).1 =
        jsonFail 500 "Failed to launch browser after 3 attempts") := by
  have hdel := launchAux_delays_allfail succ hf (m + 1) m 1 (le_refl 1)
  have hdel2 : delaysOf (launchBrowserWithRetry succ (m + 1)).2 =
      (List.range m).map (fun i => 2000 * 2 ^ i) := by
    rw [launchBrowserWithRetry, hdel]
    simp
  refine ⟨?_, hdel2, ?_, ?_, ?_⟩
  · have := launchAux_attempts_allfail succ hf (m + 1) m 1
    rw [launchBrowserWithRetry, this]
    apply List.map_congr_left
    intro i _
    omega
  · intro i di dn hdi hdn
    rw [hdel2] at hdi hdn
    simp only [List.getElem?_map] at hdi hdn
    by_cases him2 : i + 1 < m
    · have him : i < m := by omega
      rw [List.getElem?_range him] at hdi
      rw [List.getElem?_range him2] at hdn
      simp at hdi hdn
      subst hdi
      subst hdn
      rw [pow_succ]
      ring
    · have hn : (List.range m)[i + 1]? = none := by
        simp
        omega
      rw [hn] at hdn
      simp at hdn
  · rw [launchBrowserWithRetry]
    exact launchAux_error_allfail succ hf (m + 1) m 1
  · intro env p hdob hs hp hfail
    rcases hL : launchBrowserWithRetry env.launchSucc 3 with ⟨r, levs⟩
    have herr : (launchBrowserWithRetry env.launchSucc 3).1 =
        Except.error ("Failed to launch browser after " ++ toString 3 ++ " attempts") := by
      rw [launchBrowserWithRetry]
      exact launchAux_error_allfail env.launchSucc hfail 3 2 1
    rw [hL] at herr
    simp only at herr
    subst herr
    simp [submitTenant, assertDOB_DDMMYYYY, hdob, hs, hp, hL]
    rfl

/-- Witness for C4 at three all-failing attempts: delays 2000 then
4000 ms, and the loop ends in the exhaustion error. -/
theorem C4_backoff_and_exhaustion_witness :
    delaysOf (launchBrowserWithRetry (fun _ => false) 3).2 =
      (List.range 2).map (fun i => 2000 * 2 ^ i) ∧
    delaysOf (launchBrowserWithRetry (fun _ => false) 3).2 = [2000, 4000] ∧
    (launchBrowserWithRetry (fun _ => false) 3).1 =
      Except.error "Failed to launch browser after 3 attempts" :=
  ⟨(C4_backoff_and_exhaustion 2 (fun _ => false) (fun _ => rfl)).2.1,
   by rw [(C4_backoff_and_exhaustion 2 (fun _ => false) (fun _ => rfl)).2.1]; decide,
   by rw [(C4_backoff_and_exhaustion 2 (fun _ => false) (fun _ => rfl)).2.2.2.1]; rfl⟩

/-- C5: the cascade step never returns successfully unless network
activity settled and the dependent option list has strictly more than
one entry; when the earlier steps succeed but the dependent list stays
at one entry or fewer the operation times out; and the first dropdown
is selected by label first, falling back to selection by value. -/
theorem C5_cascade_postback_gate (env : PostbackEnv) :
    ((selectWithPostback env).1 = PwResult.ok →
      env.networkIdleReached = true ∧ env.dependentOptions > 1) ∧
    (env.dependentOptions ≤ 1 → (selectWithPostback env).1 ≠ PwResult.ok) ∧
    (env.selectorVisible = true → (env.labelSelectOk || env.valueSelectOk) = true →
      env.networkIdleReached = true → env.dependentOptions ≤ 1 →
      (selectWithPostback env).1 = PwResult.timeout) ∧
    (env.selectorVisible = true → env.labelSelectOk = true →
      (selectWithPostback env).2 = some SelectStrategy.byLabel) ∧
    (env.selectorVisible = true → env.labelSelectOk = false →
      env.valueSelectOk = true →
      (selectWithPostback env).2 = some SelectStrategy.byValue) := by
  obtain ⟨sv, lb, vl, ni, dep⟩ := env
  by_cases hd : dep > 1
  all_goals
    cases sv <;> cases lb <;> cases vl <;> cases ni <;>
      simp [selectWithPostback, hd]

/-- Witness for C5: a page whose dependent list stays at a single
placeholder entry makes the step time out. -/
theorem C5_cascade_postback_gate_witness :
    (selectWithPostback
      { selectorVisible := true, labelSelectOk := true, valueSelectOk := true,
        networkIdleReached := true, dependentOptions := 1 }).1 = PwResult.timeout :=
  (C5_cascade_postback_gate
    { selectorVisible := true, labelSelectOk := true, valueSelectOk := true,
      networkIdleReached := true, dependentOptions := 1 }).2.2.1
    rfl (by decide) rfl (by decide)

/-- C6: with an empty or absent value both fill helpers perform no
page interaction at all; otherwise they act on exactly the first
selector in list order that exists on the page, skipping earlier
absent candidates and ignoring later ones; and when no candidate
exists they silently do nothing. -/
theorem C6_field_fill_first_present (present : String → Bool) (v : String)
    (hv : v ≠ "") :
    (∀ sels, setIfExists present sels none = [] ∧
      setIfExists present sels (some "") = [] ∧
      selectIfExists present sels none = [] ∧
      selectIfExists present sels (some "") = []) ∧
    (∀ l1 sel l2, (∀ x ∈ l1, present x = false) → present sel = true →
      setIfExists present (l1 ++ sel :: l2) (some v) = [FillAct.fill sel v] ∧
      selectIfExists present (l1 ++ sel :: l2) (some v) = [FillAct.select sel v]) ∧
    (∀ sels, (∀ x ∈ sels, present x = false) →
      setIfExists present sels (some v) = [] ∧
      selectIfExists present sels (some v) = []) := by
  refine ⟨fun sels => ⟨rfl, by simp [setIfExists], rfl, by simp [selectIfExists]⟩, ?_, ?_⟩
  · intro l1 sel l2 h1 hsel
    constructor <;>
      simp [setIfExists, selectIfExists, hv, firstPresent_mid present l1 sel l2 h1 hsel]
  · intro sels h
    constructor <;> simp [setIfExists, selectIfExists, hv, firstPresent_none present sels h]

/-- Witness for C6 on the phone-field candidate pair of the route:
only the second selector exists, and it is the one filled. -/
theorem C6_field_fill_first_present_witness :
    setIfExists (fun s => s == "#ContentPlaceHolder1_txtTPhone")
      ["#ContentPlaceHolder1_txtTtntNo", "#ContentPlaceHolder1_txtTPhone"]
      (some "9876543210") =
      [FillAct.fill "#ContentPlaceHolder1_txtTPhone" "9876543210"] :=
  ((C6_field_fill_first_present (fun s => s == "#ContentPlaceHolder1_txtTPhone")
      "9876543210" (by decide)).2.1
    ["#ContentPlaceHolder1_txtTtntNo"] "#ContentPlaceHolder1_txtTPhone" []
    (by decide) (by decide)).1

/-- C7: a reference that is already a local path — absolute Unix-style
or drive-letter Windows-style — is returned unchanged with no network
fetch; any other reference triggers exactly one fetch, which fails
with the FileFetchError message on a non-success response and
otherwise yields a temp path built from the random suffix and the
extension of the URL pathname when determinable. -/
theorem C7_file_attachment_resolver (env : FetchEnv) (u : String) :
    (startsWithSlash u = true ∨ isWinDrivePath u = true →
      downloadToTemp env u = (Except.ok u, 0)) ∧
    (startsWithSlash u = false → isWinDrivePath u = false →
      (downloadToTemp env u).2 = 1 ∧
      (env.respOk = false →
        (downloadToTemp env u).1 = Except.error ("Failed to fetch file: " ++ u)) ∧
      (env.respOk = true →
        (downloadToTemp env u).1 = Except.ok (env.tmpdir ++ "/upload-" ++ env.randHex ++
          (match env.pathname with
           | some pn => extname pn
           | none => "")))) ∧
    extname "/files/photo.jpg" = ".jpg" := by
  refine ⟨?_, ?_, by decide⟩
  · rintro (h | h) <;> simp [downloadToTemp, h]
  · intro h1 h2
    cases hr : env.respOk <;>
      refine ⟨?_, ?_, ?_⟩ <;> simp [downloadToTemp, h1, h2, hr]

/-- Witness for C7: a slash-prefixed reference passes through without
a fetch, and an http URL is fetched once into a temp path with the
jpg extension preserved. -/
theorem C7_file_attachment_resolver_witness :
    downloadToTemp
      { respOk := true, pathname := some "/files/photo.jpg",
        randHex := "a1b2c3", tmpdir := "/tmp" } "/home/user/p.png" =
      (Except.ok "/home/user/p.png", 0) ∧
    (downloadToTemp
      { respOk := true, pathname := some "/files/photo.jpg",
        randHex := "a1b2c3", tmpdir := "/tmp" }
      "http://files.example/files/photo.jpg").1 =
      Except.ok "/tmp/upload-a1b2c3.jpg" :=
  ⟨(C7_file_attachment_resolver
      { respOk := true, pathname := some "/files/photo.jpg",
        randHex := "a1b2c3", tmpdir := "/tmp" } "/home/user/p.png").1
      (Or.inl (by decide)),
   by
    rw [((C7_file_attachment_resolver
      { respOk := true, pathname := some "/files/photo.jpg",
        randHex := "a1b2c3", tmpdir := "/tmp" }
      "http://files.example/files/photo.jpg").2.1 (by decide) (by decide)).2.2 rfl]
    rfl⟩

/-- C8: age derivation subtracts the birth year from the current year
and decrements exactly when the birthday has not yet occurred this
year, the birthday itself counting as occurred; on 15-06-2000 it gives
23 on 2024-06-14 and 24 on 2024-06-15; and the derived value is used
only when the caller supplies no age (absent or empty). -/
theorem C8_age_derivation (dd mm yyyy : Int) (d m y dob : String)
    (hsplit : splitStr '-' dob = [d, m, y])
    (hd : digitsToInt d = some dd) (hm : digitsToInt m = some mm)
    (hy : digitsToInt y = some yyyy) (nowY nowM nowD : Int) :
    computeAgeFromDob dob nowY nowM nowD =
      toString (if (nowM > mm || (nowM == mm && nowD ≥ dd)) = true
                then nowY - yyyy else nowY - yyyy - 1) ∧
    computeAgeFromDob "15-06-2000" 2024 6 14 = "23" ∧
    computeAgeFromDob "15-06-2000" 2024 6 15 = "24" ∧
    (∀ a, a ≠ "" → computedAge (some a) dob nowY nowM nowD = a) ∧
    computedAge none dob nowY nowM nowD = computeAgeFromDob dob nowY nowM nowD ∧
    computedAge (some "") dob nowY nowM nowD = computeAgeFromDob dob nowY nowM nowD := by
  refine ⟨?_, by decide, by decide, ?_, rfl, by simp [computedAge]⟩
  · simp [computeAgeFromDob, hsplit, hd, hm, hy]
  · intro a ha
    simp [computedAge, ha]

/-- Witness for C8 at the boundary dates of the claim. -/
theorem C8_age_derivation_witness :
    computeAgeFromDob "15-06-2000" 2024 6 14 = "23" ∧
    computeAgeFromDob "15-06-2000" 2024 6 15 = "24" ∧
    computedAge (some "30") "15-06-2000" 2024 6 14 = "30" :=
  ⟨(C8_age_derivation 15 6 2000 "15" "06" "2000" "15-06-2000"
      (by decide) (by decide) (by decide) (by decide) 2024 6 14).2.1,
   (C8_age_derivation 15 6 2000 "15" "06" "2000" "15-06-2000"
      (by decide) (by decide) (by decide) (by decide) 2024 6 15).2.2.1,
   (C8_age_derivation 15 6 2000 "15" "06" "2000" "15-06-2000"
      (by decide) (by decide) (by decide) (by decide) 2024 6 14).2.2.2.1
     "30" (by decide)⟩

/-- C9: on every exit path of a submission on which the browser was
acquired, the browser is closed exactly once and the browsing context
exactly once when it was created (and never when its creation threw),
and a throw from either close call is logged without changing the
response of the submission. -/
theorem C9_cleanup_exactly_once (env : SubmitEnv) (p : PoliceFormData)
    (hdob : dobRegexOk p.date_of_birth = true)
    (hs : env.serverReady = true) (hp : env.playwrightReady = true)
    (k : Nat) (hk : (launchBrowserWithRetry env.launchSucc 3).1 = Except.ok k) :
    ((submitTenant env p).2.count Ev.browserClose = 1) ∧
    (env.ctxOk = true → (submitTenant env p).2.count Ev.ctxClose = 1) ∧
    (env.ctxOk = false → (submitTenant env p).2.count Ev.ctxClose = 0) ∧
    (∀ b1 b2,
      (submitTenant { env with ctxCloseFails := b1, browserCloseFails := b2 } p).1 =
        (submitTenant env p).1) := by
  rcases hL : launchBrowserWithRetry env.launchSucc 3 with ⟨r, levs⟩
  rw [hL] at hk
  simp only at hk
  subst hk
  have hcount := launchAux_closes env.launchSucc 3 3 1
  have hlev : (launchAux env.launchSucc 3 1 3).2 = levs := congrArg Prod.snd hL
  rw [hlev] at hcount
  have h1 : (if env.cacheFresh then ([] : List Ev)
      else [Ev.refreshScheduled]).count Ev.browserClose = 0 := by
    cases env.cacheFresh <;> simp
  have h2 : (if env.cacheFresh then ([] : List Ev)
      else [Ev.refreshScheduled]).count Ev.ctxClose = 0 := by
    cases env.cacheFresh <;> simp
  obtain ⟨cc, hT, hcc⟩ : ∃ cc : Bool,
      (submitTenant env p).2 =
        (if env.cacheFresh then ([] : List Ev) else [Ev.refreshScheduled]) ++
          (levs ++ finallyEvs cc env) ∧ cc = env.ctxOk := by
    cases hC : env.ctxOk
    · exact ⟨false, by simp [submitTenant, assertDOB_DDMMYYYY, hdob, hs, hp, hL, hC], rfl⟩
    · rcases hI : innerOutcome env with m | rr
      · exact ⟨true,
          by simp [submitTenant, assertDOB_DDMMYYYY, hdob, hs, hp, hL, hC, hI], rfl⟩
      · exact ⟨true,
          by simp [submitTenant, assertDOB_DDMMYYYY, hdob, hs, hp, hL, hC, hI], rfl⟩
  refine ⟨?_, ?_, ?_, ?_⟩
  · rw [hT]
    simp [List.count_append, hcount.1, h1, (finallyEvs_counts cc env).1]
  · intro hC
    rw [hT]
    simp [List.count_append, hcount.2, h2, hcc, hC, (finallyEvs_counts true env).2]
  · intro hC
    rw [hT]
    simp [List.count_append, hcount.2, h2, hcc, hC, (finallyEvs_counts false env).2]
  · intro b1 b2
    rcases hO : env.autoOutcome with m | u <;>
      rcases hX : extractReference env.candText env.html with _ | rr <;>
        cases hC : env.ctxOk <;>
          simp [submitTenant, assertDOB_DDMMYYYY, innerOutcome,
            hdob, hs, hp, hC, hL, hO, hX]

/-- Witness for C9 on a fully healthy run: one context close and one
browser close. -/
theorem C9_cleanup_exactly_once_witness :
    (submitTenant envBase pGood).2.count Ev.browserClose = 1 ∧
    (submitTenant envBase pGood).2.count Ev.ctxClose = 1 :=
  ⟨(C9_cleanup_exactly_once envBase pGood (by decide) rfl rfl 1 rfl).1,
   (C9_cleanup_exactly_once envBase pGood (by decide) rfl rfl 1 rfl).2.1 rfl⟩

/-- C10: the date-of-birth check runs before both readiness gates, so
a malformed date always yields 400 whatever the readiness flags; a
well-formed date yields 503 whenever the cached playwrightReady flag
is false; and the handler uses the cached flag as-is — the staleness
of the cache changes only the scheduled background refresh in the
trace, never the response of the current request. -/
theorem C10_validation_before_readiness (env : SubmitEnv) (p : PoliceFormData) :
    (dobRegexOk p.date_of_birth = false → (submitTenant env p).1.status = 400) ∧
    (dobRegexOk p.date_of_birth = true → env.playwrightReady = false →
      (submitTenant env p).1.status = 503) ∧
    (∀ b, (submitTenant { env with cacheFresh := b } p).1 = (submitTenant env p).1) := by
  refine ⟨?_, ?_, ?_⟩
  · intro h
    simp [submitTenant, assertDOB_DDMMYYYY, h, jsonFail]
  · intro h hp
    cases hS : env.serverReady <;>
      simp [submitTenant, assertDOB_DDMMYYYY, h, hp, hS, jsonFail, jsonFailHint]
  · intro b
    by_cases hA : dobRegexOk p.date_of_birth
    case neg => simp [submitTenant, assertDOB_DDMMYYYY, hA]
    case pos =>
      rcases hL : launchBrowserWithRetry env.launchSucc 3 with ⟨r, levs⟩
      rcases hO : env.autoOutcome with m | u <;>
        rcases hX : extractReference env.candText env.html with _ | rr <;>
          cases hS : env.serverReady <;> cases hP : env.playwrightReady <;>
            cases hC : env.ctxOk <;> cases r <;>
              simp [submitTenant, assertDOB_DDMMYYYY, innerOutcome,
                hA, hS, hP, hC, hL, hO, hX]

/-- Witness for C10: a malformed date yields 400 even with the browser
subsystem down, and a well-formed date yields 503 when the cached
playwrightReady flag is false with a stale cache. -/
theorem C10_validation_before_readiness_witness :
    (submitTenant { envBase with playwrightReady := false, cacheFresh := false }
      pBadDob).1.status = 400 ∧
    (submitTenant { envBase with playwrightReady := false, cacheFresh := false }
      pGood).1.status = 503 :=
  ⟨(C10_validation_before_readiness
      { envBase with playwrightReady := false, cacheFresh := false } pBadDob).1
      (by decide),
   (C10_validation_before_readiness
      { envBase with playwrightReady := false, cacheFresh := false } pGood).2.1
      (by decide) rfl⟩
